import Mathlib

/-!
Verification of the fixspot application (`src/app.py`): identifier
extraction, the in-memory metadata cache with lazy expiry, the oEmbed
metadata fetcher, and the request router.

Modelling conventions:
* Python strings are modelled as Lean `String` / `List Char`.
* `urllib.parse.unquote` is modelled at the byte level: a valid `%XY`
  hex escape becomes the character with code `16*X+Y`; invalid escapes
  are passed through unchanged, exactly as in CPython.  The final UTF-8
  re-decoding of bytes ≥ 0x80 is not modelled; it only affects
  non-ASCII characters, which cannot appear in any of the ASCII
  patterns the program searches for, and the UTF-8 error handling of
  CPython never consumes ASCII bytes, so pattern occurrences are
  unaffected.
* The regular expressions of the source are compiled by hand into
  explicit leftmost-match searches over `List Char`; `\d` (which on
  `str` patterns matches every Unicode decimal digit, category Nd) is
  modelled by the full Nd range table of Unicode 14.0, the database of
  the CPython 3.11 `re` module.
* Wall-clock instants (`datetime.utcnow()`) are modelled as `Nat`
  timestamps; `timedelta` values as `Nat` numbers of seconds.
* The upstream HTTP call of `requests.get` is modelled by an explicit
  oracle value of type `UpstreamResult` passed to the fetcher.
-/

namespace Fixspot

/-- ASCII alphanumeric, the character class `[a-zA-Z0-9]` of the regular
expressions in the source. -/
def isAlnumPy (c : Char) : Bool :=
  ('a' ≤ c && c ≤ 'z') || ('A' ≤ c && c ≤ 'Z') || ('0' ≤ c && c ≤ '9')

/-- The code-point ranges of the Unicode general category Nd (decimal
digits), Unicode 14.0 — the table behind `\d` in the CPython 3.11 `re`
module for `str` patterns. -/
def ndRanges : List (Nat × Nat) :=
  [(48, 57), (1632, 1641), (1776, 1785), (1984, 1993),
   (2406, 2415), (2534, 2543), (2662, 2671), (2790, 2799),
   (2918, 2927), (3046, 3055), (3174, 3183), (3302, 3311),
   (3430, 3439), (3558, 3567), (3664, 3673), (3792, 3801),
   (3872, 3881), (4160, 4169), (4240, 4249), (6112, 6121),
   (6160, 6169), (6470, 6479), (6608, 6617), (6784, 6793),
   (6800, 6809), (6992, 7001), (7088, 7097), (7232, 7241),
   (7248, 7257), (42528, 42537), (43216, 43225), (43264, 43273),
   (43472, 43481), (43504, 43513), (43600, 43609), (44016, 44025),
   (65296, 65305), (66720, 66729), (68912, 68921), (69734, 69743),
   (69872, 69881), (69942, 69951), (70096, 70105), (70384, 70393),
   (70736, 70745), (70864, 70873), (71248, 71257), (71360, 71369),
   (71472, 71481), (71904, 71913), (72016, 72025), (72784, 72793),
   (73040, 73049), (73120, 73129), (92768, 92777), (92864, 92873),
   (93008, 93017), (120782, 120831), (123200, 123209), (123632, 123641),
   (125264, 125273), (130032, 130041)]

/-- The character class `\d` of the regular expressions in the source:
any Unicode decimal digit (category Nd). -/
def isDigitPy (c : Char) : Bool :=
  ndRanges.any (fun r => r.1 ≤ c.toNat && c.toNat ≤ r.2)

/-- Hexadecimal digit as accepted by `urllib.parse.unquote`. -/
def isHexDigitPy (c : Char) : Bool :=
  ('0' ≤ c && c ≤ '9') || ('a' ≤ c && c ≤ 'f') || ('A' ≤ c && c ≤ 'F')

/-- Numeric value of a hexadecimal digit. -/
def hexVal (c : Char) : Nat :=
  if '0' ≤ c && c ≤ '9' then c.toNat - '0'.toNat
  else if 'a' ≤ c && c ≤ 'f' then c.toNat - 'a'.toNat + 10
  else c.toNat - 'A'.toNat + 10

/-- Does `pat` occur at the very beginning of `l`?  (The anchored step
of a regex search.) -/
def begMatch : List Char → List Char → Bool
  | [], _ => true
  | _ :: _, [] => false
  | p :: ps, c :: cs => p == c && begMatch ps cs

/-- Does `pat` occur as a contiguous segment anywhere in `l`?
(Substring occurrence, the reach of `re.search`.) -/
def containsSeg (l pat : List Char) : Bool :=
  match l with
  | [] => pat.isEmpty
  | _ :: cs => begMatch pat l || containsSeg cs pat

/-- Does the list start with two hexadecimal digits, i.e. does a `%`
just before it begin a valid escape? -/
def escOk : List Char → Bool
  | h1 :: h2 :: _ => isHexDigitPy h1 && isHexDigitPy h2
  | _ => false

/-- One-pass scanner behind `unquote`.  The flag records whether a `%`
has just been consumed: in that state the next two characters are
decoded when they are hexadecimal digits, and otherwise the `%` (and
any character already inspected) is emitted literally and scanning
resumes, exactly as `urllib.parse.unquote` leaves invalid escapes
untouched. -/
def unqGo : Bool → List Char → List Char
  | false, [] => []
  | false, c :: cs => if c = '%' then unqGo true cs else c :: unqGo false cs
  | true, [] => ['%']
  | true, h1 :: cs =>
    if isHexDigitPy h1 then
      match cs with
      | h2 :: rest =>
        if isHexDigitPy h2 then
          Char.ofNat (16 * hexVal h1 + hexVal h2) :: unqGo false rest
        else if h2 = '%' then '%' :: h1 :: unqGo true rest
        else '%' :: h1 :: h2 :: unqGo false rest
      | [] => ['%', h1]
    else if h1 = '%' then '%' :: unqGo true cs
    else '%' :: h1 :: unqGo false cs

/-- Model of `urllib.parse.unquote` (see the module docstring): valid
`%XY` escapes are decoded to the byte value, everything else is passed
through unchanged.  Total — the `unquote` of CPython never raises. -/
def unquote (l : List Char) : List Char := unqGo false l

/-- The literal alternative `spotify\.com\/track\/` of the track
regex. -/
def trackPat1 : List Char := "spotify.com/track/".data

/-- The literal alternative `spotify:track:` of the track regex. -/
def trackPat2 : List Char := "spotify:track:".data

/-- Anchored attempt, at the head of `l`, of the literal `pat`
followed by exactly 22 ASCII alphanumerics, whose capture is
returned. -/
def matchIdAfter (pat l : List Char) : Option (List Char) :=
  if begMatch pat l then
    let rest := l.drop pat.length
    let id := rest.take 22
    if id.length == 22 && id.all isAlnumPy then some id else none
  else none

/-- Leftmost search of
the track regex — either literal alternative followed by a capture of
exactly 22 characters of `[a-zA-Z0-9]` (the `re.search` call in
`extract_spotify_track_id`) — returning the capture group. -/
def searchTrack : List Char → Option (List Char)
  | [] => none
  | c :: cs =>
    match matchIdAfter trackPat1 (c :: cs) with
    | some id => some id
    | none =>
      match matchIdAfter trackPat2 (c :: cs) with
      | some id => some id
      | none => searchTrack cs

/-- The `re.fullmatch` test of the source: exactly 22 characters of
`[a-zA-Z0-9]`, the bare-identifier shape. -/
def fullmatchId (l : List Char) : Bool :=
  l.length == 22 && l.all isAlnumPy

/-- `extract_spotify_track_id` of `src/app.py`.  The `try/except`
wrapper of the source is not modelled: every operation in the body
(`unquote`, the regex searches) is total, so the handler is
unreachable and the function is the pure composition below. -/
def extract_spotify_track_id (url_string : String) : Option String :=
  if url_string = "" then none
  else if fullmatchId url_string.data then some url_string
  else
    match searchTrack (unquote url_string.data) with
    | some id => some (String.mk id)
    | none => none

/-- The normalized metadata record `result_data` assembled in
`get_spotify_data`.  The source keeps `width` and `height` as the
strings captured by the regexes (or the string defaults), so they are
`String` fields here as well. -/
structure TrackMetadata where
  title : String
  thumbnail_url : Option String
  original_url : String
  embed_url : String
  width : String
  height : String
  provider_name : String
  service_name : String
  your_twitter_handle : String
  track_id : String
deriving DecidableEq

/-- The module-level `cache` dict: finitely many entries mapping a
namespaced key to `(result_data, expiry_time)`. -/
abbrev Cache := List (String × (TrackMetadata × Nat))

/-- Dict membership / indexing: the value stored under `key`, if
any. -/
def cacheLookup : Cache → String → Option (TrackMetadata × Nat)
  | [], _ => none
  | (k, v) :: rest, key => if k = key then some v else cacheLookup rest key

/-- `del cache[cache_key]`. -/
def cacheErase : Cache → String → Cache
  | [], _ => []
  | (k, v) :: rest, key =>
    if k = key then cacheErase rest key else (k, v) :: cacheErase rest key

/-- `cache[cache_key] = (result_data, now + CACHE_DURATION)` (line 101
of `src/app.py`): unconditional overwrite. -/
def cachePut (c : Cache) (key : String) (d : TrackMetadata) (expiry : Nat) : Cache :=
  (key, (d, expiry)) :: cacheErase c key

/-- The cache read of lines 51-60 of `src/app.py`: a present, fresh
entry is returned unchanged; a present but expired entry is deleted
and reported as a miss; an absent key is a miss.  Returns the lookup
result together with the cache left behind. -/
def cacheGet (c : Cache) (key : String) (now : Nat) : Option TrackMetadata × Cache :=
  match cacheLookup c key with
  | some (cached_data, expiry_time) =>
    if now < expiry_time then (some cached_data, c)
    else (none, cacheErase c key)
  | none => (none, c)

/-- The JSON body of a successful oEmbed response, as a record of the
keys the program reads.  `none` models an absent key; present keys are
modelled as carrying string values. -/
structure OEmbedData where
  title : Option String
  thumbnail_url : Option String
  html : Option String
  provider_name : Option String
deriving DecidableEq

/-- Outcome of the `requests.get` call in `get_spotify_data`, passed
to the fetcher as an oracle.  `timeout` is `requests.exceptions.Timeout`,
`connectionError` any other `RequestException`, `httpError` the
exception of `raise_for_status()` on a non-2xx status, and `badJson` a
body `response.json()` cannot parse. -/
inductive UpstreamResult where
  | timeout
  | connectionError
  | httpError
  | badJson
  | ok (data : OEmbedData)
deriving DecidableEq

/-- The literal `src="` opening the regex `src="([^"]+)"`. -/
def srcAttr : List Char := "src=\"".data

/-- The literal `width="` opening the regex `width="(\d+)"`. -/
def widthAttr : List Char := "width=\"".data

/-- The literal `height="` opening the regex `height="(\d+)"`. -/
def heightAttr : List Char := "height=\"".data

/-- Anchored attempt of `src="([^"]+)"` at the head of `l`: the
literal, a nonempty run of non-quote characters, and the closing
quote. -/
def matchSrcAt (l : List Char) : Option (List Char) :=
  if begMatch srcAttr l then
    let rest := l.drop srcAttr.length
    let run := rest.takeWhile (fun ch => ch != '"')
    if run.length == 0 then none
    else
      match rest.drop run.length with
      | '"' :: _ => some run
      | _ => none
  else none

/-- Leftmost search of `src="([^"]+)"` (`re.search` on the oEmbed
`html` field). -/
def searchSrc : List Char → Option (List Char)
  | [] => none
  | c :: cs =>
    match matchSrcAt (c :: cs) with
    | some run => some run
    | none => searchSrc cs

/-- Anchored attempt of `attr("(\d+)"` — the shared shape of the
`width`/`height` regexes — at the head of `l`. -/
def matchNumAt (attr l : List Char) : Option (List Char) :=
  if begMatch attr l then
    let rest := l.drop attr.length
    let run := rest.takeWhile isDigitPy
    if run.length == 0 then none
    else
      match rest.drop run.length with
      | '"' :: _ => some run
      | _ => none
  else none

/-- Leftmost search of `width="(\d+)"` / `height="(\d+)"` over the
oEmbed `html` field. -/
def searchNumAttr (attr : List Char) : List Char → Option (List Char)
  | [] => none
  | c :: cs =>
    match matchNumAt attr (c :: cs) with
    | some run => some run
    | none => searchNumAttr attr cs

/-- `get_spotify_data` of `src/app.py`.  The configuration globals
`SERVICE_NAME`, `YOUR_TWITTER_HANDLE` and `CACHE_DURATION` are
parameters, `now` is the timestamp `datetime.utcnow()`, `c` the cache
the call starts from, and `upstream` the outcome of the single
`requests.get` call.  Returns the Python return value (`result_data`
or `None`) together with the cache left behind. -/
def get_spotify_data (SERVICE_NAME YOUR_TWITTER_HANDLE : String)
    (CACHE_DURATION : Nat) (track_id : String) (now : Nat)
    (c : Cache) (upstream : UpstreamResult) : Option TrackMetadata × Cache :=
  let cache_key := "spotify:" ++ track_id
  match cacheGet c cache_key now with
  | (some cached_data, c₁) => (some cached_data, c₁)
  | (none, c₁) =>
    let original_url := "https://open.spotify.com/track/" ++ track_id
    match upstream with
    | .timeout => (none, c₁)
    | .connectionError => (none, c₁)
    | .httpError => (none, c₁)
    | .badJson => (none, c₁)
    | .ok data =>
      if data.title.isSome && data.thumbnail_url.isSome && data.html.isSome then
        let html := (data.html.getD "").data
        match searchSrc html with
        | none => (none, c₁)
        | some embed_chars =>
          let width := ((searchNumAttr widthAttr html).map String.mk).getD "300"
          let height := ((searchNumAttr heightAttr html).map String.mk).getD "380"
          let result_data : TrackMetadata :=
            { title := data.title.getD "Spotify Track"
              thumbnail_url := data.thumbnail_url
              original_url := original_url
              embed_url := String.mk embed_chars
              width := width
              height := height
              provider_name := data.provider_name.getD "Spotify"
              service_name := SERVICE_NAME
              your_twitter_handle := YOUR_TWITTER_HANDLE
              track_id := track_id }
          (some result_data, cachePut c₁ cache_key result_data (now + CACHE_DURATION))
      else (none, c₁)

/-- The `USER_AGENT_BOTS` allow-list. -/
def USER_AGENT_BOTS : List String :=
  ["Discordbot", "TelegramBot", "facebookexternalhit", "Twitterbot", "Slackbot"]

/-- `any(bot_ua in user_agent for bot_ua in USER_AGENT_BOTS)`:
case-sensitive substring test of the User-Agent header. -/
def isBot (user_agent : String) : Bool :=
  USER_AGENT_BOTS.any (fun bot_ua => containsSeg user_agent.data bot_ua.data)

/-- Python `str.strip()` whitespace set (ASCII part). -/
def isPySpace (c : Char) : Bool :=
  c = ' ' || c = '\t' || c = '\n' || c = '\r' || c = '\x0b' || c = '\x0c'

/-- Python `str.strip()`: surrounding whitespace removed. -/
def pyStrip (s : String) : String :=
  String.mk (((s.data.dropWhile isPySpace).reverse.dropWhile isPySpace).reverse)

/-- The response value produced by `handle_request`: the landing page
(200), the error page referencing the offending input (400), the
rendered embed page for a bot (200), or a redirect with its status
code. -/
inductive HttpResponse where
  | landing
  | errorPage (input : String)
  | embedPage (data : TrackMetadata)
  | redirect (url : String) (code : Nat)
deriving DecidableEq

/-- Body of `handle_request` after the input value has been selected
from the query parameter or the path (line 143 of `src/app.py`). -/
def route_with_input (user_agent input_value : String)
    (SERVICE_NAME YOUR_TWITTER_HANDLE : String) (CACHE_DURATION now : Nat)
    (c : Cache) (upstream : UpstreamResult) : HttpResponse × Cache :=
  if input_value = "" then (.landing, c)
  else
    match extract_spotify_track_id input_value with
    | none => (.errorPage input_value, c)
    | some track_id =>
      if isBot user_agent then
        match get_spotify_data SERVICE_NAME YOUR_TWITTER_HANDLE CACHE_DURATION
            track_id now c upstream with
        | (some spotify_data, c₂) => (.embedPage spotify_data, c₂)
        | (none, c₂) =>
          (.redirect ("https://open.spotify.com/track/" ++ track_id) 307, c₂)
      else (.redirect ("https://open.spotify.com/track/" ++ track_id) 307, c)

/-- `handle_request` of `src/app.py`:
`input_value = request.args.get(url, path).strip()` — the `url` query
parameter if present, the path otherwise, stripped — then the
routing above.  `url_param` is the `url` query parameter when
present. -/
def handle_request (user_agent path : String) (url_param : Option String)
    (SERVICE_NAME YOUR_TWITTER_HANDLE : String) (CACHE_DURATION now : Nat)
    (c : Cache) (upstream : UpstreamResult) : HttpResponse × Cache :=
  route_with_input user_agent (pyStrip (url_param.getD path))
    SERVICE_NAME YOUR_TWITTER_HANDLE CACHE_DURATION now c upstream

/-- Failure classification of a fetch attempt, following §4.3/§7 of
the specification: the transport failures, a body missing one of the
three required keys, and an `html` field without an extractable
`src="..."` attribute. -/
def fetchFails : UpstreamResult → Bool
  | .timeout => true
  | .connectionError => true
  | .httpError => true
  | .badJson => true
  | .ok data =>
    !(data.title.isSome && data.thumbnail_url.isSome && data.html.isSome) ||
    ((searchSrc (data.html.getD "").data).isNone)

/-- The track pattern of the specification, as a predicate on the
decoded input: `id` is a 22-character alphanumeric identifier and
`spotify.com/track/<id>` or `spotify:track:<id>` occurs as a contiguous
segment of `l`. -/
def hasTrackPat (l id : List Char) : Bool :=
  (id.length == 22) && id.all isAlnumPy &&
  (containsSeg l (trackPat1 ++ id) || containsSeg l (trackPat2 ++ id))

/-! ### Anchored matching -/

theorem begMatch_iff (pat l : List Char) :
    begMatch pat l = true ↔ ∃ t, l = pat ++ t := by
  induction pat generalizing l with
  | nil =>
    simp [begMatch]
  | cons p ps ih =>
    cases l with
    | nil => simp [begMatch]
    | cons c cs =>
      simp only [begMatch, Bool.and_eq_true, beq_iff_eq, ih, List.cons_append]
      constructor
      · rintro ⟨rfl, t, rfl⟩
        exact ⟨t, rfl⟩
      · rintro ⟨t, ht⟩
        cases ht
        exact ⟨rfl, t, rfl⟩

theorem containsSeg_cons (c : Char) (cs pat : List Char) :
    containsSeg (c :: cs) pat = (begMatch pat (c :: cs) || containsSeg cs pat) := rfl

theorem containsSeg_of_begMatch {pat l : List Char} (h : begMatch pat l = true) :
    containsSeg l pat = true := by
  cases l with
  | nil =>
    cases pat with
    | nil => rfl
    | cons p ps => simp [begMatch] at h
  | cons c cs => simp [containsSeg_cons, h]

theorem containsSeg_cons_of {cs pat : List Char} (c : Char)
    (h : containsSeg cs pat = true) : containsSeg (c :: cs) pat = true := by
  simp [containsSeg_cons, h]

theorem length_le_of_containsSeg {l pat : List Char}
    (h : containsSeg l pat = true) : pat.length ≤ l.length := by
  induction l with
  | nil =>
    cases pat with
    | nil => exact Nat.le_refl 0
    | cons p ps => simp [containsSeg] at h
  | cons c cs ih =>
    rw [containsSeg_cons, Bool.or_eq_true] at h
    rcases h with h | h
    · obtain ⟨t, ht⟩ := (begMatch_iff pat _).1 h
      rw [ht]
      simp [List.length_append]
    · exact Nat.le_trans (ih h) (by simp)

theorem matchIdAfter_sound {pat l id : List Char}
    (h : matchIdAfter pat l = some id) :
    id.length = 22 ∧ id.all isAlnumPy = true ∧ begMatch (pat ++ id) l = true := by
  unfold matchIdAfter at h
  split at h
  case isFalse => exact absurd h (by simp)
  case isTrue hb =>
    dsimp only at h
    split at h
    case isFalse => exact absurd h (by simp)
    case isTrue hc =>
      injection h with h
      subst h
      rw [Bool.and_eq_true, beq_iff_eq] at hc
      refine ⟨hc.1, hc.2, ?_⟩
      obtain ⟨t, ht⟩ := (begMatch_iff pat l).1 hb
      subst ht
      rw [List.drop_left]
      refine (begMatch_iff _ _).2 ⟨t.drop 22, ?_⟩
      rw [List.append_assoc]
      exact congrArg (pat ++ ·) (List.take_append_drop 22 t).symm

theorem matchIdAfter_complete {pat l id : List Char}
    (hb : begMatch (pat ++ id) l = true) (h22 : id.length = 22)
    (ha : id.all isAlnumPy = true) : matchIdAfter pat l = some id := by
  obtain ⟨t, ht⟩ := (begMatch_iff _ _).1 hb
  subst ht
  have h1 : begMatch pat (pat ++ id ++ t) = true :=
    (begMatch_iff _ _).2 ⟨id ++ t, by rw [List.append_assoc]⟩
  have hd : (pat ++ id ++ t).drop pat.length = id ++ t := by
    rw [List.append_assoc]
    exact List.drop_left _ _
  have htake : (id ++ t).take 22 = id := List.take_left' h22
  unfold matchIdAfter
  rw [if_pos h1]
  simp only [hd, htake, h22, ha, beq_self_eq_true, Bool.and_true, if_pos]

theorem searchTrack_sound {l id : List Char} (h : searchTrack l = some id) :
    hasTrackPat l id = true := by
  induction l with
  | nil => simp [searchTrack] at h
  | cons c cs ih =>
    rw [searchTrack] at h
    cases h1 : matchIdAfter trackPat1 (c :: cs) with
    | some id1 =>
      rw [h1] at h
      injection h with h
      subst h
      obtain ⟨h22, ha, hb⟩ := matchIdAfter_sound h1
      simp [hasTrackPat, h22, ha, containsSeg_of_begMatch hb]
    | none =>
      rw [h1] at h
      cases h2 : matchIdAfter trackPat2 (c :: cs) with
      | some id2 =>
        rw [h2] at h
        injection h with h
        subst h
        obtain ⟨h22, ha, hb⟩ := matchIdAfter_sound h2
        simp [hasTrackPat, h22, ha, containsSeg_of_begMatch hb]
      | none =>
        rw [h2] at h
        have := ih h
        simp only [hasTrackPat, Bool.and_eq_true, Bool.or_eq_true] at this ⊢
        refine ⟨this.1, ?_⟩
        rcases this.2 with hc | hc
        · exact Or.inl (containsSeg_cons_of c hc)
        · exact Or.inr (containsSeg_cons_of c hc)

theorem searchTrack_complete {l id : List Char} (h : hasTrackPat l id = true) :
    (searchTrack l).isSome = true := by
  induction l with
  | nil =>
    simp only [hasTrackPat, Bool.and_eq_true, Bool.or_eq_true, beq_iff_eq] at h
    rcases h.2 with hc | hc
    · have := length_le_of_containsSeg hc
      simp [List.length_append] at this
      exact absurd this.1 (by decide)
    · have := length_le_of_containsSeg hc
      simp [List.length_append] at this
      exact absurd this.1 (by decide)
  | cons c cs ih =>
    rw [searchTrack]
    cases h1 : matchIdAfter trackPat1 (c :: cs) with
    | some id1 => rfl
    | none =>
      cases h2 : matchIdAfter trackPat2 (c :: cs) with
      | some id2 => rfl
      | none =>
        simp only [hasTrackPat, Bool.and_eq_true, Bool.or_eq_true, beq_iff_eq] at h
        obtain ⟨⟨h22, ha⟩, hc⟩ := h
        refine ih ?_
        simp only [hasTrackPat, Bool.and_eq_true, Bool.or_eq_true, beq_iff_eq]
        refine ⟨⟨h22, ha⟩, ?_⟩
        rcases hc with hc | hc
        · rw [containsSeg_cons, Bool.or_eq_true] at hc
          rcases hc with hb | hc
          · exact absurd (matchIdAfter_complete hb h22 ha) (by simp [h1])
          · exact Or.inl hc
        · rw [containsSeg_cons, Bool.or_eq_true] at hc
          rcases hc with hb | hc
          · exact absurd (matchIdAfter_complete hb h22 ha) (by simp [h2])
          · exact Or.inr hc

/-! ### Percent-decoding -/

/-- Every `%` in the list fails to begin a valid escape: the
percent-decoding of the input achieves nothing. -/
def allPercentMalformed : List Char → Bool
  | [] => true
  | c :: cs =>
    if c = '%' then !(escOk cs) && allPercentMalformed cs
    else allPercentMalformed cs

theorem isHexDigitPy_ne_percent {c : Char} (h : isHexDigitPy c = true) :
    c ≠ '%' := by
  intro hc
  subst hc
  exact absurd h (by decide)

theorem unqGo_true_cons_nothex {h1 : Char} (cs : List Char)
    (hh : isHexDigitPy h1 = false) :
    unqGo true (h1 :: cs) =
      if h1 = '%' then '%' :: unqGo true cs else '%' :: h1 :: unqGo false cs := by
  cases cs with
  | nil =>
    by_cases hp : h1 = '%' <;> simp [unqGo, hh, hp]
  | cons h2 rest =>
    by_cases hp : h1 = '%'
    · subst hp
      simp [unqGo, (by decide : isHexDigitPy '%' = false)]
    · simp [unqGo, hh, hp]

theorem unqGo_of_malformed (b : Bool) (l : List Char)
    (hml : allPercentMalformed l = true) (hesc : b = true → escOk l = false) :
    unqGo b l = (if b then ['%'] else []) ++ l := by
  induction b, l using unqGo.induct with
  | case1 => rfl
  | case2 cs ih =>
    simp only [allPercentMalformed, if_pos, Bool.and_eq_true, Bool.not_eq_true'] at hml
    have h := ih hml.2 (fun _ => hml.1)
    simp only [if_pos] at h
    simp [unqGo, h]
  | case3 c cs hc ih =>
    simp only [allPercentMalformed, if_neg hc] at hml
    have h := ih hml (fun hf => nomatch hf)
    simp only [Bool.false_eq_true, if_false, List.nil_append] at h
    simp [unqGo, hc, h]
  | case4 => rfl
  | case5 h1 hhex1 h2 rest hhex2 ih =>
    exact absurd (hesc rfl) (by simp [escOk, hhex1, hhex2])
  | case6 h1 hhex1 rest hpn ih =>
    have hne : h1 ≠ '%' := isHexDigitPy_ne_percent hhex1
    simp only [allPercentMalformed, if_neg hne, if_pos, Bool.and_eq_true,
      Bool.not_eq_true'] at hml
    have h := ih hml.2 (fun _ => hml.1)
    simp only [if_pos] at h
    simp [unqGo, hhex1, hpn, h]
  | case7 h1 hhex1 h2 rest hhex2 hp ih =>
    have hne : h1 ≠ '%' := isHexDigitPy_ne_percent hhex1
    simp only [allPercentMalformed, if_neg hne, if_neg hp] at hml
    have h := ih hml (fun hf => nomatch hf)
    simp only [Bool.false_eq_true, if_false, List.nil_append] at h
    simp [unqGo, hhex1, hhex2, hp, h]
  | case8 h1 hhex1 =>
    simp [unqGo, hhex1]
  | case9 cs hpn ih =>
    simp only [allPercentMalformed, if_pos, Bool.and_eq_true, Bool.not_eq_true'] at hml
    have h := ih hml.2 (fun _ => hml.1)
    simp only [if_pos] at h
    rw [unqGo_true_cons_nothex cs (by decide)]
    simp [h]
  | case10 h1 cs hhex1 hp ih =>
    simp only [allPercentMalformed, if_neg hp] at hml
    have h := ih hml (fun hf => nomatch hf)
    simp only [Bool.false_eq_true, if_false, List.nil_append] at h
    rw [unqGo_true_cons_nothex cs (by simpa using hhex1)]
    simp [hp, h]

theorem unquote_of_malformed {l : List Char}
    (hml : allPercentMalformed l = true) : unquote l = l := by
  have := unqGo_of_malformed false l hml (by intro h; cases h)
  simpa [unquote] using this

theorem allPercentMalformed_of_noPercent {l : List Char}
    (h : ∀ c ∈ l, c ≠ '%') : allPercentMalformed l = true := by
  induction l with
  | nil => rfl
  | cons c cs ih =>
    rw [allPercentMalformed, if_neg (h c (by simp))]
    exact ih (fun x hx => h x (by simp [hx]))

theorem unquote_of_noPercent {l : List Char} (h : ∀ c ∈ l, c ≠ '%') :
    unquote l = l :=
  unquote_of_malformed (allPercentMalformed_of_noPercent h)

theorem isAlnumPy_ne_percent {c : Char} (h : isAlnumPy c = true) : c ≠ '%' := by
  intro hc
  subst hc
  exact absurd h (by decide)

/-! ### Cache lemmas -/

theorem cacheLookup_erase (c : Cache) (key : String) :
    cacheLookup (cacheErase c key) key = none := by
  induction c with
  | nil => rfl
  | cons e rest ih =>
    obtain ⟨k, v⟩ := e
    by_cases h : k = key
    · simp [cacheErase, h, ih]
    · simp [cacheErase, h, cacheLookup, ih]

theorem cacheGet_eq_absent {c : Cache} {key : String} (now : Nat)
    (hl : cacheLookup c key = none) : cacheGet c key now = (none, c) := by
  simp [cacheGet, hl]

theorem cacheGet_eq_fresh {c : Cache} {key : String} {d : TrackMetadata}
    {exp now : Nat} (hl : cacheLookup c key = some (d, exp)) (hn : now < exp) :
    cacheGet c key now = (some d, c) := by
  simp [cacheGet, hl, hn]

theorem cacheGet_eq_expired {c : Cache} {key : String} {d : TrackMetadata}
    {exp now : Nat} (hl : cacheLookup c key = some (d, exp)) (hn : ¬now < exp) :
    cacheGet c key now = (none, cacheErase c key) := by
  simp [cacheGet, hl, hn]

theorem cacheGet_miss_lookup {c : Cache} {key : String} {now : Nat}
    (h : (cacheGet c key now).1 = none) :
    cacheLookup (cacheGet c key now).2 key = none := by
  cases hl : cacheLookup c key with
  | none =>
    rw [cacheGet_eq_absent now hl]
    exact hl
  | some v =>
    obtain ⟨d, exp⟩ := v
    by_cases hn : now < exp
    · rw [cacheGet_eq_fresh hl hn] at h
      simp at h
    · rw [cacheGet_eq_expired hl hn]
      exact cacheLookup_erase c key

/-- Sample metadata record used by concrete witnesses. -/
def mdSample : TrackMetadata :=
  { title := "T", thumbnail_url := some "U", original_url := "O",
    embed_url := "E", width := "300", height := "380",
    provider_name := "Spotify", service_name := "S",
    your_twitter_handle := "", track_id := "x" }

/-! ### Claim theorems -/

/-- C2: cache round-trip with lazy expiry.  After storing `(m, put_time
+ ttl)` under the namespaced key of the identifier, a `get` at any `now`
before the expiry instant returns `m` and leaves the cache unchanged,
and a `get` at any `now` at or after the expiry instant reports a miss
and removes the stale entry. -/
theorem cache_roundtrip (c : Cache) (track_id : String) (m : TrackMetadata)
    (ttl put_time now : Nat) :
    (now < put_time + ttl →
      cacheGet (cachePut c ("spotify:" ++ track_id) m (put_time + ttl))
          ("spotify:" ++ track_id) now
        = (some m, cachePut c ("spotify:" ++ track_id) m (put_time + ttl))) ∧
    (put_time + ttl ≤ now →
      cacheGet (cachePut c ("spotify:" ++ track_id) m (put_time + ttl))
          ("spotify:" ++ track_id) now
        = (none,
           cacheErase (cachePut c ("spotify:" ++ track_id) m (put_time + ttl))
             ("spotify:" ++ track_id)) ∧
      cacheLookup
          (cacheErase (cachePut c ("spotify:" ++ track_id) m (put_time + ttl))
            ("spotify:" ++ track_id)) ("spotify:" ++ track_id) = none) := by
  have hl : cacheLookup
      (cachePut c ("spotify:" ++ track_id) m (put_time + ttl))
      ("spotify:" ++ track_id) = some (m, put_time + ttl) := by
    simp [cachePut, cacheLookup]
  constructor
  · intro h
    exact cacheGet_eq_fresh hl h
  · intro h
    exact ⟨cacheGet_eq_expired hl (by omega), cacheLookup_erase _ _⟩

/-- Witness for C2 at concrete values: ttl 10 put at time 5, read
fresh at 7 and expired at 20. -/
theorem cache_roundtrip_witness :
    cacheGet (cachePut [] ("spotify:" ++ "x") mdSample (5 + 10))
        ("spotify:" ++ "x") 7
      = (some mdSample, cachePut [] ("spotify:" ++ "x") mdSample (5 + 10)) ∧
    cacheGet (cachePut [] ("spotify:" ++ "x") mdSample (5 + 10))
        ("spotify:" ++ "x") 20
      = (none,
         cacheErase (cachePut [] ("spotify:" ++ "x") mdSample (5 + 10))
           ("spotify:" ++ "x")) :=
  ⟨(cache_roundtrip [] "x" mdSample 10 5 7).1 (by decide),
   ((cache_roundtrip [] "x" mdSample 10 5 20).2 (by decide)).1⟩

/-- C9: idempotence of expired lookup.  Whenever a `get` reports a
miss (because the entry was absent or was just removed as stale),
every later `get` on the cache it leaves behind reports a miss again
and leaves that cache unchanged — the stale entry is removed exactly
once. -/
theorem expired_get_idempotent (c : Cache) (key : String) (now now2 : Nat)
    (h : (cacheGet c key now).1 = none) :
    cacheGet (cacheGet c key now).2 key now2 = (none, (cacheGet c key now).2) :=
  cacheGet_eq_absent now2 (cacheGet_miss_lookup h)

/-- Witness for C9: an entry that expired at instant 5, read at 6 and
then again at 7. -/
theorem expired_get_idempotent_witness :
    cacheGet (cacheGet [("spotify:x", (mdSample, 5))] "spotify:x" 6).2
        "spotify:x" 7
      = (none, (cacheGet [("spotify:x", (mdSample, 5))] "spotify:x" 6).2) :=
  expired_get_idempotent [("spotify:x", (mdSample, 5))] "spotify:x" 6 7 (by decide)

/-- C6: cache hit short-circuits the fetch.  With a present, unexpired
entry, `get_spotify_data` returns the stored metadata and the
unchanged cache for every possible upstream outcome `u` — in
particular the result does not depend on the upstream endpoint, which
is never consulted. -/
theorem fetch_cache_hit (sn th : String) (dur : Nat) (track_id : String)
    (now : Nat) (c : Cache) (m : TrackMetadata) (exp : Nat) (u : UpstreamResult)
    (hl : cacheLookup c ("spotify:" ++ track_id) = some (m, exp))
    (hfresh : now < exp) :
    get_spotify_data sn th dur track_id now c u = (some m, c) := by
  simp [get_spotify_data, cacheGet_eq_fresh hl hfresh]

/-- Witness for C6: a fresh entry served while the upstream would time
out. -/
theorem fetch_cache_hit_witness :
    get_spotify_data "S" "" 86400 "x" 5 [("spotify:x", (mdSample, 10))] .timeout
      = (some mdSample, [("spotify:x", (mdSample, 10))]) :=
  fetch_cache_hit "S" "" 86400 "x" 5 [("spotify:x", (mdSample, 10))]
    mdSample 10 .timeout (by decide) (by decide)

/-- C8: a bare identifier — exactly 22 ASCII alphanumeric characters —
is returned unchanged by the extractor. -/
theorem extract_bare_id (s : String) (h22 : s.data.length = 22)
    (ha : s.data.all isAlnumPy = true) :
    extract_spotify_track_id s = some s := by
  have hne : s ≠ "" := by
    intro he
    rw [he] at h22
    exact absurd h22 (by decide)
  have hfm : fullmatchId s.data = true := by
    simp [fullmatchId, h22, ha]
  rw [extract_spotify_track_id, if_neg hne, if_pos hfm]

/-- Witness for C8 on a concrete 22-character identifier. -/
theorem extract_bare_id_witness :
    extract_spotify_track_id "4cOdK2wGLETKBW3PvgPWqT" =
      some "4cOdK2wGLETKBW3PvgPWqT" :=
  extract_bare_id "4cOdK2wGLETKBW3PvgPWqT" (by decide) (by decide)

/-- C10: input selection in the router.  When the `url` query
parameter is present, the request is handled from its stripped value
and the path segment is ignored entirely (any two paths give the same
outcome); the path is used only when the parameter is absent. -/
theorem router_url_param_overrides_path (ua p1 p2 v sn th : String)
    (dur now : Nat) (c : Cache) (u : UpstreamResult) :
    handle_request ua p1 (some v) sn th dur now c u =
      handle_request ua p2 (some v) sn th dur now c u ∧
    handle_request ua p1 (some v) sn th dur now c u =
      route_with_input ua (pyStrip v) sn th dur now c u ∧
    handle_request ua p1 none sn th dur now c u =
      route_with_input ua (pyStrip p1) sn th dur now c u :=
  ⟨rfl, rfl, rfl⟩

theorem hasTrackPat_false_of_short {l : List Char} (h : l.length < 36)
    (id : List Char) : hasTrackPat l id = false := by
  cases htp : hasTrackPat l id
  · rfl
  · exfalso
    simp only [hasTrackPat, Bool.and_eq_true, Bool.or_eq_true, beq_iff_eq] at htp
    obtain ⟨⟨h22, _⟩, hc⟩ := htp
    have h18 : trackPat1.length = 18 := by decide
    have h14 : trackPat2.length = 14 := by decide
    rcases hc with hc | hc
    · have := length_le_of_containsSeg hc
      rw [List.length_append, h18, h22] at this
      omega
    · have := length_le_of_containsSeg hc
      rw [List.length_append, h14, h22] at this
      omega

/-- C1 (amended): if the percent-decoded input contains
`spotify.com/track/<id>` or `spotify:track:<id>` for some 22-character
alphanumeric `id`, the extractor returns the identifier captured by
the first match — in particular an identifier for which the pattern
does occur in the decoded input; and if the input is not a bare
22-character identifier and the decoded input contains the pattern for
no identifier, the extractor returns `none` (this covers the empty
string, 21- and 23-character partial identifiers, and inputs whose
percent-encoding is malformed). -/
theorem extract_pattern (s : String) :
    ((∃ id, hasTrackPat (unquote s.data) id = true) →
      ∃ id2, extract_spotify_track_id s = some (String.mk id2) ∧
        hasTrackPat (unquote s.data) id2 = true) ∧
    (fullmatchId s.data = false →
      (∀ id, hasTrackPat (unquote s.data) id = false) →
      extract_spotify_track_id s = none) := by
  constructor
  · rintro ⟨id, hid⟩
    have hne : s ≠ "" := by
      intro he
      subst he
      rw [show unquote ("" : String).data = [] from rfl] at hid
      rw [@hasTrackPat_false_of_short [] (by decide) id] at hid
      cases hid
    have hfm : fullmatchId s.data = false := by
      cases hf : fullmatchId s.data
      · rfl
      · exfalso
        rw [fullmatchId, Bool.and_eq_true, beq_iff_eq] at hf
        obtain ⟨hlen, hall⟩ := hf
        have hnp : ∀ ch ∈ s.data, ch ≠ '%' := fun ch hch =>
          isAlnumPy_ne_percent (List.all_eq_true.mp hall ch hch)
        rw [unquote_of_noPercent hnp] at hid
        rw [@hasTrackPat_false_of_short s.data (by omega) id] at hid
        cases hid
    obtain ⟨id2, hid2⟩ := Option.isSome_iff_exists.mp (searchTrack_complete hid)
    refine ⟨id2, ?_, searchTrack_sound hid2⟩
    rw [extract_spotify_track_id, if_neg hne, hfm]
    simp [hid2]
  · intro hfm hnone
    by_cases hne : s = ""
    · subst hne
      rfl
    · rw [extract_spotify_track_id, if_neg hne, hfm]
      simp only [Bool.false_eq_true, if_false]
      cases hst : searchTrack (unquote s.data) with
      | none => rfl
      | some id2 =>
        have := searchTrack_sound hst
        rw [hnone id2] at this
        cases this

/-- Counterexample for C1 as frozen: an input containing the track
pattern for two different identifiers.  The pattern with the second
identifier (22 `b`s) occurs in the (here trivially) decoded input, yet
the extractor does not return it — it returns the first capture (22
`a`s) instead. -/
theorem extract_pattern_counterexample :
    hasTrackPat
        (unquote ("spotify.com/track/aaaaaaaaaaaaaaaaaaaaaa spotify.com/track/bbbbbbbbbbbbbbbbbbbbbb" : String).data)
        "bbbbbbbbbbbbbbbbbbbbbb".data = true ∧
      extract_spotify_track_id
          "spotify.com/track/aaaaaaaaaaaaaaaaaaaaaa spotify.com/track/bbbbbbbbbbbbbbbbbbbbbb"
        ≠ some "bbbbbbbbbbbbbbbbbbbbbb" ∧
      extract_spotify_track_id
          "spotify.com/track/aaaaaaaaaaaaaaaaaaaaaa spotify.com/track/bbbbbbbbbbbbbbbbbbbbbb"
        = some "aaaaaaaaaaaaaaaaaaaaaa" := by
  refine ⟨by decide, by decide, by decide⟩

/-- Witness for C1 (amended): the positive branch on a fully
percent-encoded URL, the negative branch on an input matching
neither pattern. -/
theorem extract_pattern_witness :
    (∃ id2,
      extract_spotify_track_id
          "https%3A%2F%2Fopen.spotify.com%2Ftrack%2F4cOdK2wGLETKBW3PvgPWqT"
        = some (String.mk id2) ∧
      hasTrackPat
        (unquote ("https%3A%2F%2Fopen.spotify.com%2Ftrack%2F4cOdK2wGLETKBW3PvgPWqT" : String).data)
        id2 = true) ∧
    extract_spotify_track_id "not-a-track" = none :=
  ⟨(extract_pattern _).1 ⟨"4cOdK2wGLETKBW3PvgPWqT".data, by decide⟩,
   (extract_pattern "not-a-track").2 (by decide)
     (fun id => hasTrackPat_false_of_short (by decide) id)⟩

/-- C4: inputs whose percent-decoding achieves nothing — every `%`
fails to begin a valid escape — do not raise: decoding leaves the raw
string unchanged, and the extractor still runs the substring search on
it, returning the captured identifier when the search succeeds and
`none` only when it also fails. -/
theorem extract_malformed_fallback (s : String) (hp : '%' ∈ s.data)
    (hml : allPercentMalformed s.data = true) :
    extract_spotify_track_id s = (searchTrack s.data).map String.mk := by
  have hne : s ≠ "" := by
    intro he
    rw [he] at hp
    exact absurd hp (by decide)
  have hfm : fullmatchId s.data = false := by
    cases hf : fullmatchId s.data
    · rfl
    · exfalso
      rw [fullmatchId, Bool.and_eq_true] at hf
      exact absurd (List.all_eq_true.mp hf.2 '%' hp) (by decide)
  rw [extract_spotify_track_id, if_neg hne, hfm]
  simp only [Bool.false_eq_true, if_false]
  rw [show unquote s.data = s.data from unquote_of_malformed hml]
  cases searchTrack s.data <;> simp

/-- Witness for C4: an input with two malformed escapes around a
`spotify:track:` URI; the raw-string search still finds the
identifier. -/
theorem extract_malformed_fallback_witness :
    extract_spotify_track_id "%zz%spotify:track:cccccccccccccccccccccc" =
      (searchTrack ("%zz%spotify:track:cccccccccccccccccccccc" : String).data).map
        String.mk :=
  extract_malformed_fallback "%zz%spotify:track:cccccccccccccccccccccc"
    (by decide) (by decide)

theorem searchNumAttr_sound {attr l run : List Char}
    (h : searchNumAttr attr l = some run) :
    run ≠ [] ∧ run.all isDigitPy = true := by
  induction l with
  | nil => simp [searchNumAttr] at h
  | cons c cs ih =>
    rw [searchNumAttr] at h
    cases hm : matchNumAt attr (c :: cs) with
    | some r =>
      rw [hm] at h
      injection h with h
      subst h
      unfold matchNumAt at hm
      split at hm
      case isFalse => exact absurd hm (by simp)
      case isTrue hb =>
        dsimp only at hm
        split at hm
        case isTrue => exact absurd hm (by simp)
        case isFalse hlen =>
          split at hm
          case h_2 => exact absurd hm (by simp)
          case h_1 x heq =>
            injection hm with hm
            subst hm
            constructor
            · intro hnil
              rw [hnil] at hlen
              exact hlen (by decide)
            · exact List.all_eq_true.mpr (fun x hx => List.mem_takeWhile_imp hx)
    | none =>
      rw [hm] at h
      exact ih h

/-- Numeric value of a digit string (for stating that a captured
dimension is not a positive integer). -/
def digitsToNat (l : List Char) : Nat :=
  l.foldl (fun acc ch => 10 * acc + (ch.toNat - '0'.toNat)) 0

/-- C3 (amended): every metadata record assembled by a fresh fetch
carries `width` and `height` fields that are nonempty ASCII-digit
strings — hence nonnegative, but not necessarily positive, integers —
each taken independently from the first `width="N"` / `height="N"`
match in the upstream html fragment, with `width` defaulting to `"300"`
and `height` to `"380"` when its attribute search fails. -/
theorem fetch_dimensions (sn th : String) (dur : Nat) (tid : String)
    (now : Nat) (c : Cache) (data : OEmbedData) (md : TrackMetadata)
    (hm : (cacheGet c ("spotify:" ++ tid) now).1 = none)
    (hmd : (get_spotify_data sn th dur tid now c (.ok data)).1 = some md) :
    ∃ hv, data.html = some hv ∧
      md.width = ((searchNumAttr widthAttr hv.data).map String.mk).getD "300" ∧
      md.height = ((searchNumAttr heightAttr hv.data).map String.mk).getD "380" ∧
      md.width.data ≠ [] ∧ md.width.data.all isDigitPy = true ∧
      md.height.data ≠ [] ∧ md.height.data.all isDigitPy = true := by
  rcases hget : cacheGet c ("spotify:" ++ tid) now with ⟨r, c₁⟩
  rw [hget] at hm
  simp only at hm
  subst hm
  rcases data with ⟨ot, oth, oh, op⟩
  cases ot with
  | none => simp [get_spotify_data, hget] at hmd
  | some t =>
    cases oth with
    | none => simp [get_spotify_data, hget] at hmd
    | some thv =>
      cases oh with
      | none => simp [get_spotify_data, hget] at hmd
      | some hv =>
        cases hss : searchSrc hv.data with
        | none => simp [get_spotify_data, hget, hss] at hmd
        | some ec =>
          simp only [get_spotify_data, hget, hss, Option.isSome_some,
            Bool.and_self, if_pos, Option.getD_some] at hmd
          refine ⟨hv, rfl, ?_⟩
          injection hmd with hmd
          subst hmd
          refine ⟨rfl, rfl, ?_, ?_, ?_, ?_⟩
          · cases hw : searchNumAttr widthAttr hv.data with
            | none => simp [hw]
            | some run =>
              simp only [hw, Option.map_some, Option.getD_some]
              exact (searchNumAttr_sound hw).1
          · cases hw : searchNumAttr widthAttr hv.data with
            | none => dsimp only; decide
            | some run =>
              simp only [hw, Option.map_some, Option.getD_some]
              exact (searchNumAttr_sound hw).2
          · cases hh : searchNumAttr heightAttr hv.data with
            | none => simp [hh]
            | some run =>
              simp only [hh, Option.map_some, Option.getD_some]
              exact (searchNumAttr_sound hh).1
          · cases hh : searchNumAttr heightAttr hv.data with
            | none => dsimp only; decide
            | some run =>
              simp only [hh, Option.map_some, Option.getD_some]
              exact (searchNumAttr_sound hh).2

/-- Counterexample for C3 as frozen: an upstream fragment with
`width="0"` is accepted by the `\d+` capture, so the assembled record
carries width `"0"` — numerically zero, not a positive integer. -/
theorem fetch_dimensions_counterexample :
    ((get_spotify_data "S" "" 86400 "4cOdK2wGLETKBW3PvgPWqT" 0 []
        (.ok { title := some "T", thumbnail_url := some "U",
               html := some "<iframe src=\"https://e\" width=\"0\" height=\"380\"></iframe>",
               provider_name := some "Spotify" })).1).map TrackMetadata.width
      = some "0" ∧
    ((get_spotify_data "S" "" 86400 "4cOdK2wGLETKBW3PvgPWqT" 0 []
        (.ok { title := some "T", thumbnail_url := some "U",
               html := some "<iframe src=\"https://e\" width=\"0\" height=\"380\"></iframe>",
               provider_name := some "Spotify" })).1).map
        (fun md => digitsToNat md.width.data) = some 0 ∧
    ¬0 < digitsToNat ("0" : String).data := by
  refine ⟨by decide, by decide, by decide⟩

/-- Witness for C3 (amended): a fragment carrying `width="80"` but no
height attribute, so height falls back to `"380"`. -/
theorem fetch_dimensions_witness :
    ∃ hv, ({ title := some "T", thumbnail_url := some "U",
             html := some "<iframe src=\"https://e\" width=\"80\"></iframe>",
             provider_name := some "Spotify" } : OEmbedData).html = some hv ∧
      (({ title := "T", thumbnail_url := some "U",
          original_url := "https://open.spotify.com/track/x",
          embed_url := "https://e", width := "80", height := "380",
          provider_name := "Spotify", service_name := "S",
          your_twitter_handle := "", track_id := "x" } : TrackMetadata)).width
        = ((searchNumAttr widthAttr hv.data).map String.mk).getD "300" ∧
      (({ title := "T", thumbnail_url := some "U",
          original_url := "https://open.spotify.com/track/x",
          embed_url := "https://e", width := "80", height := "380",
          provider_name := "Spotify", service_name := "S",
          your_twitter_handle := "", track_id := "x" } : TrackMetadata)).height
        = ((searchNumAttr heightAttr hv.data).map String.mk).getD "380" ∧
      ("80" : String).data ≠ [] ∧ ("80" : String).data.all isDigitPy = true ∧
      ("380" : String).data ≠ [] ∧ ("380" : String).data.all isDigitPy = true := by
  have h := fetch_dimensions "S" "" 86400 "x" 0 []
    { title := some "T", thumbnail_url := some "U",
      html := some "<iframe src=\"https://e\" width=\"80\"></iframe>",
      provider_name := some "Spotify" }
    { title := "T", thumbnail_url := some "U",
      original_url := "https://open.spotify.com/track/x",
      embed_url := "https://e", width := "80", height := "380",
      provider_name := "Spotify", service_name := "S",
      your_twitter_handle := "", track_id := "x" }
    (by decide) (by decide)
  obtain ⟨hv, h1, h2, h3, _⟩ := h
  exact ⟨hv, h1, h2, h3, by decide, by decide, by decide, by decide⟩

/-- C5: failure classification of a fresh fetch.  Starting from a
cache miss, `get_spotify_data` reports failure (returns no record)
exactly when the upstream call times out, fails to connect, returns a
non-2xx status, yields a malformed JSON body, yields a body missing
one of `title`, `thumbnail_url`, `html`, or yields html with no
extractable `src="..."` attribute; and in every failure case the
key of the identifier is absent from the cache left behind — nothing
partial is stored. -/
theorem fetch_failure_classification (sn th : String) (dur : Nat) (tid : String)
    (now : Nat) (c : Cache) (u : UpstreamResult)
    (hm : (cacheGet c ("spotify:" ++ tid) now).1 = none) :
    ((get_spotify_data sn th dur tid now c u).1 = none ↔ fetchFails u = true) ∧
    (fetchFails u = true →
      cacheLookup (get_spotify_data sn th dur tid now c u).2 ("spotify:" ++ tid)
        = none) := by
  have hc₁ := cacheGet_miss_lookup hm
  rcases hget : cacheGet c ("spotify:" ++ tid) now with ⟨r, c₁⟩
  rw [hget] at hm hc₁
  simp only at hm hc₁
  subst hm
  cases u with
  | timeout =>
    exact ⟨by simp [get_spotify_data, hget, fetchFails],
      fun _ => by simp [get_spotify_data, hget, hc₁]⟩
  | connectionError =>
    exact ⟨by simp [get_spotify_data, hget, fetchFails],
      fun _ => by simp [get_spotify_data, hget, hc₁]⟩
  | httpError =>
    exact ⟨by simp [get_spotify_data, hget, fetchFails],
      fun _ => by simp [get_spotify_data, hget, hc₁]⟩
  | badJson =>
    exact ⟨by simp [get_spotify_data, hget, fetchFails],
      fun _ => by simp [get_spotify_data, hget, hc₁]⟩
  | ok data =>
    rcases data with ⟨ot, oth, oh, op⟩
    cases ot with
    | none =>
      exact ⟨by simp [get_spotify_data, hget, fetchFails],
        fun _ => by simp [get_spotify_data, hget, hc₁]⟩
    | some t =>
      cases oth with
      | none =>
        exact ⟨by simp [get_spotify_data, hget, fetchFails],
          fun _ => by simp [get_spotify_data, hget, hc₁]⟩
      | some thv =>
        cases oh with
        | none =>
          exact ⟨by simp [get_spotify_data, hget, fetchFails],
            fun _ => by simp [get_spotify_data, hget, hc₁]⟩
        | some hv =>
          cases hss : searchSrc hv.data with
          | none =>
            exact ⟨by simp [get_spotify_data, hget, fetchFails, hss],
              fun _ => by simp [get_spotify_data, hget, hss, hc₁]⟩
          | some ec =>
            refine ⟨by simp [get_spotify_data, hget, fetchFails, hss], fun hf => ?_⟩
            rw [fetchFails] at hf
            simp [hss] at hf

/-- Witness for C5: a timeout on an empty cache (failure reported,
nothing cached) and a complete response (no failure reported). -/
theorem fetch_failure_classification_witness :
    ((get_spotify_data "S" "" 86400 "x" 0 [] .timeout).1 = none ↔
      fetchFails .timeout = true) ∧
    ((get_spotify_data "S" "" 86400 "x" 0 []
        (.ok { title := some "T", thumbnail_url := some "U",
               html := some "<iframe src=\"https://e\"></iframe>",
               provider_name := some "Spotify" })).1 = none ↔
      fetchFails
        (.ok { title := some "T", thumbnail_url := some "U",
               html := some "<iframe src=\"https://e\"></iframe>",
               provider_name := some "Spotify" }) = true) ∧
    cacheLookup (get_spotify_data "S" "" 86400 "x" 0 [] .timeout).2 ("spotify:" ++ "x")
      = none :=
  ⟨(fetch_failure_classification "S" "" 86400 "x" 0 [] .timeout (by decide)).1,
   (fetch_failure_classification "S" "" 86400 "x" 0 []
      (.ok { title := some "T", thumbnail_url := some "U",
             html := some "<iframe src=\"https://e\"></iframe>",
             provider_name := some "Spotify" }) (by decide)).1,
   (fetch_failure_classification "S" "" 86400 "x" 0 [] .timeout (by decide)).2
     (by decide)⟩

/-- C7: redirect on non-bot or failed-fetch requests.  Whenever the
selected input yields an identifier and either the User-Agent is not
a known bot, or it is a known bot but the fetch returns no metadata
(any failure kind, a timeout included), the response is a 307 redirect
to the canonical track URL — never an error response. -/
theorem router_redirect (ua path : String) (urlp : Option String) (sn th : String)
    (dur now : Nat) (c : Cache) (u : UpstreamResult) (tid : String)
    (hex : extract_spotify_track_id (pyStrip (urlp.getD path)) = some tid)
    (hcase : isBot ua = false ∨
      (get_spotify_data sn th dur tid now c u).1 = none) :
    (handle_request ua path urlp sn th dur now c u).1 =
      .redirect ("https://open.spotify.com/track/" ++ tid) 307 := by
  have hne : pyStrip (urlp.getD path) ≠ "" := by
    intro he
    rw [he] at hex
    rw [extract_spotify_track_id] at hex
    simp at hex
  rw [handle_request, route_with_input, if_neg hne, hex]
  rcases hcase with hb | hf
  · simp [hb]
  · by_cases hb : isBot ua
    · rcases hg : get_spotify_data sn th dur tid now c u with ⟨r, c₂⟩
      rw [hg] at hf
      simp only at hf
      subst hf
      simp [hb, hg]
    · simp [hb]

/-- Witness for C7: a non-bot browser User-Agent with a bare
identifier in the path, and a Discord bot whose fetch times out. -/
theorem router_redirect_witness :
    (handle_request "Mozilla/5.0" "4cOdK2wGLETKBW3PvgPWqT" none "S" "" 86400 0 []
        .timeout).1 =
      .redirect ("https://open.spotify.com/track/" ++ "4cOdK2wGLETKBW3PvgPWqT") 307 ∧
    (handle_request "Discordbot/2.0" "4cOdK2wGLETKBW3PvgPWqT" none "S" "" 86400 0 []
        .timeout).1 =
      .redirect ("https://open.spotify.com/track/" ++ "4cOdK2wGLETKBW3PvgPWqT") 307 :=
  ⟨router_redirect "Mozilla/5.0" "4cOdK2wGLETKBW3PvgPWqT" none "S" "" 86400 0 []
      .timeout "4cOdK2wGLETKBW3PvgPWqT" (by decide) (Or.inl (by decide)),
   router_redirect "Discordbot/2.0" "4cOdK2wGLETKBW3PvgPWqT" none "S" "" 86400 0 []
      .timeout "4cOdK2wGLETKBW3PvgPWqT" (by decide) (Or.inr (by decide))⟩

end Fixspot
